import Mathlib

/-!
Verification of the FMI open-data loader (`fmi.py`).

The module downloads weather observations and forecasts from the FMI WFS
service.  All date arithmetic in the source is done with Python `datetime`
objects at (at most) minute precision: every datetime the code constructs has
`second = 0` and `microsecond = 0` (`now` is truncated with
`replace(microsecond=0, second=0)`, parsed dates are combined with
`time.min`/`time.max` and then truncated the same way).  We therefore embed
Python datetimes as a record of year/month/day/hour/minute over `Nat`,
together with a proleptic-Gregorian absolute-minute count `toAbs` used for
comparison and `timedelta` arithmetic.
-/

/-- Embedding of a Python `datetime` at minute precision. -/
structure DateTime where
  year : Nat
  month : Nat
  day : Nat
  hour : Nat
  minute : Nat
deriving DecidableEq, Repr

/-- Gregorian leap-year rule, as implemented by Python's `calendar`/`datetime`. -/
def isLeapYear (y : Nat) : Bool :=
  (y % 4 == 0 && y % 100 != 0) || y % 400 == 0

/-- Number of days in a month of a given year (Python `calendar.monthrange`). -/
def daysInMonth (y m : Nat) : Nat :=
  match m with
  | 1 => 31
  | 2 => if isLeapYear y then 29 else 28
  | 3 => 31
  | 4 => 30
  | 5 => 31
  | 6 => 30
  | 7 => 31
  | 8 => 31
  | 9 => 30
  | 10 => 31
  | 11 => 30
  | 12 => 31
  | _ => 0

/-- The datetime is a value Python's `datetime` constructor would accept
(year at least 1, calendar-valid month/day, in-range time fields). -/
def DateTime.ValidDT (dt : DateTime) : Prop :=
  1 ≤ dt.year ∧ 1 ≤ dt.month ∧ dt.month ≤ 12 ∧ 1 ≤ dt.day ∧
    dt.day ≤ daysInMonth dt.year dt.month ∧ dt.hour < 24 ∧ dt.minute < 60

instance (dt : DateTime) : Decidable dt.ValidDT := by
  unfold DateTime.ValidDT; infer_instance

/-- Days in year `y` that precede month `m`. -/
def daysBeforeMonth (y : Nat) : Nat → Nat
  | 0 => 0
  | m + 1 => daysBeforeMonth y m + daysInMonth y m

/-- Days of the proleptic Gregorian calendar strictly before year `y`
(year 1 is day 0). -/
def daysBeforeYear (y : Nat) : Nat :=
  365 * (y - 1) + (y - 1) / 4 - (y - 1) / 100 + (y - 1) / 400

/-- Ordinal day number of the date part (Python `date.toordinal`, zero-based). -/
def DateTime.dateDays (dt : DateTime) : Nat :=
  daysBeforeYear dt.year + daysBeforeMonth dt.year dt.month + (dt.day - 1)

/-- Absolute minute count of a datetime; Python datetime comparison and
subtraction are chronological, which on valid datetimes is exactly the order
and difference of `toAbs`. -/
def DateTime.toAbs (dt : DateTime) : Nat :=
  dt.dateDays * 1440 + dt.hour * 60 + dt.minute

/-- Step one calendar day forward (the day-rollover of Python datetime
arithmetic). -/
def nextDay (dt : DateTime) : DateTime :=
  if dt.day < daysInMonth dt.year dt.month then
    DateTime.mk dt.year dt.month (dt.day + 1) dt.hour dt.minute
  else if dt.month < 12 then
    DateTime.mk dt.year (dt.month + 1) 1 dt.hour dt.minute
  else
    DateTime.mk (dt.year + 1) 1 1 dt.hour dt.minute

/-- Step one calendar day backward. -/
def prevDay (dt : DateTime) : DateTime :=
  if 1 < dt.day then
    DateTime.mk dt.year dt.month (dt.day - 1) dt.hour dt.minute
  else if 1 < dt.month then
    DateTime.mk dt.year (dt.month - 1) (daysInMonth dt.year (dt.month - 1)) dt.hour dt.minute
  else
    DateTime.mk (dt.year - 1) 12 31 dt.hour dt.minute

/-- Add one hour (Python `dt + timedelta(hours=1)`). -/
def nextHour (dt : DateTime) : DateTime :=
  if dt.hour < 23 then
    DateTime.mk dt.year dt.month dt.day (dt.hour + 1) dt.minute
  else
    let d := nextDay dt
    DateTime.mk d.year d.month d.day 0 d.minute

/-- Subtract one hour (Python `dt - timedelta(hours=1)`). -/
def prevHour (dt : DateTime) : DateTime :=
  if 0 < dt.hour then
    DateTime.mk dt.year dt.month dt.day (dt.hour - 1) dt.minute
  else
    let d := prevDay dt
    DateTime.mk d.year d.month d.day 23 d.minute

/-- Python `dt + timedelta(days=n)`: `n` single-day steps. -/
def addDays : Nat → DateTime → DateTime
  | 0, dt => dt
  | n + 1, dt => addDays n (nextDay dt)

/-- Python `dt + timedelta(hours=n)`: `n` single-hour steps. -/
def addHours : Nat → DateTime → DateTime
  | 0, dt => dt
  | n + 1, dt => addHours n (nextHour dt)

/-- Python `dt - timedelta(hours=n)`: `n` single-hour steps backward. -/
def subHours : Nat → DateTime → DateTime
  | 0, dt => dt
  | n + 1, dt => subHours n (prevHour dt)

/-- Python `min(a, b)` on datetimes: returns `a` unless `b` is strictly
smaller. -/
def pyMinDT (a b : DateTime) : DateTime :=
  if b.toAbs < a.toAbs then b else a

example : nextDay (DateTime.mk 2022 8 31 5 7) = DateTime.mk 2022 9 1 5 7 := by decide
example : prevHour (DateTime.mk 2022 9 1 0 0) = DateTime.mk 2022 8 31 23 0 := by decide
example : (DateTime.mk 2022 8 15 0 0).toAbs + 1000 * 60 =
    (DateTime.mk 2022 9 25 16 0).toAbs := by decide

/-! ## Chunked observation fetch (`get_observations`, `fmi.py` lines 64-106) -/

/-- `fmi.py` lines 77-83: last hour of the month containing `dt`, computed as
`replace(day=28)`, `+ timedelta(days=4)`, `replace(day=1)`,
`combine(date, time.min)`, `- timedelta(hours=1)`. -/
def month_last_h (dt : DateTime) : DateTime :=
  let d1 := DateTime.mk dt.year dt.month 28 dt.hour dt.minute
  let d2 := addDays 4 d1
  let d3 := DateTime.mk d2.year d2.month 1 d2.hour d2.minute
  let d4 := DateTime.mk d3.year d3.month d3.day 0 0
  prevHour d4

/-- `fmi.py` line 68: `divmod((end-start).total_seconds(), 3600)[0]`.
`total_seconds` of the difference of two minute-precision datetimes is
60 times the signed difference of their absolute minute counts, and Python's
`divmod` floor-divides. -/
def spanHours (s e : DateTime) : Int :=
  Int.fdiv (((e.toAbs : Int) - (s.toAbs : Int)) * 60) 3600

/-- `fmi.py` line 69: `too_long = hours > 744`. -/
def too_long (s e : DateTime) : Bool :=
  744 < spanHours s e

/-- The `while not end_reached` loop of `fmi.py` lines 89-104, recorded as the
list of `(block_start, block_end)` query windows it passes to `_load_obs`, in
loop order.  The loop has no bound in the source; `fuel` bounds the recursion
and `none` means the bound was too small. -/
def chunksLoop : Nat → DateTime → DateTime → Option (List (DateTime × DateTime))
  | 0, _, _ => none
  | fuel + 1, start, stop =>
      let last_hour := month_last_h start
      if stop.toAbs < last_hour.toAbs then
        some [(start, stop)]
      else
        (chunksLoop fuel (nextHour last_hour) stop).map
          (fun rest => (start, last_hour) :: rest)

/-- The query windows `get_observations` uses for a resolved `(start, end)`
range (`fmi.py` lines 66-106): one window when the span is within 744 hours,
otherwise the windows produced by the monthly loop. -/
def get_observations_chunks (fuel : Nat) (start stop : DateTime) :
    Option (List (DateTime × DateTime)) :=
  if too_long start stop then chunksLoop fuel start stop else some [(start, stop)]

/-- Structural description of a chunk list for the range `[start, stop]`:
the first chunk begins at `start`; every chunk except the last ends at the
last hour of the month of its own start; each later chunk begins one hour
after the end of the chunk before it; the last chunk ends at `stop`. -/
def chunksOK (stop : DateTime) : DateTime → List (DateTime × DateTime) → Prop
  | _, [] => False
  | start, (a, b) :: rest =>
      a = start ∧
        match rest with
        | [] => b = stop
        | _ :: _ => b = month_last_h start ∧ chunksOK stop (nextHour b) rest

example : chunksLoop 3 (DateTime.mk 2022 8 15 0 0) (DateTime.mk 2022 9 25 16 0) =
    some [(DateTime.mk 2022 8 15 0 0, DateTime.mk 2022 8 31 23 0),
          (DateTime.mk 2022 9 1 0 0, DateTime.mk 2022 9 25 16 0)] := by decide

/-! ## Errors and argument truthiness -/

/-- The exceptions the module can raise while handling arguments: the
`ValueError`s it raises itself (`invalidArg`, with the message) and the
`ValueError` coming out of `datetime.strptime` on a malformed date string
(`strptimeError`).  Both are `ValueError` in Python; they are distinguished
by provenance and message. -/
inductive FmiErr where
  | invalidArg : String → FmiErr
  | strptimeError : String → FmiErr
deriving DecidableEq, Repr

deriving instance DecidableEq for Except

/-- Python truthiness of an optional `int` argument: `None` and `0` are
falsy. -/
def natTruthy : Option Nat → Bool
  | none => false
  | some n => n != 0

/-- Python truthiness of an optional `str` argument: `None` and `""` are
falsy. -/
def strTruthy : Option String → Bool
  | none => false
  | some s => s != ""

/-! ## Date-range inference (`_get_datetime_limits`, `fmi.py` lines 265-315) -/

/-- A Python `date` (the date part of the arguments; no time fields). -/
structure DateOnly where
  year : Nat
  month : Nat
  day : Nat
deriving DecidableEq, Repr

/-- A `start_date`/`end_date` argument: either a string to be parsed with
`strptime(s, "%Y-%m-%d")` or an already-constructed `date` object. -/
inductive DateArg where
  | str : String → DateArg
  | obj : DateOnly → DateArg
deriving DecidableEq, Repr

/-- Splitting a character list on a separator character, the executable
stand-in for the field splitting inside `strptime` and `float`. -/
def splitOnChar (sep : Char) : List Char → List (List Char)
  | [] => [[]]
  | c :: rest =>
      let r := splitOnChar sep rest
      if c = sep then [] :: r
      else
        match r with
        | [] => [[c]]
        | g :: gs => (c :: g) :: gs

/-- Parse a nonempty all-digit field as a number. -/
def digitsToNat? (cs : List Char) : Option Nat :=
  if cs ≠ [] ∧ cs.all Char.isDigit then
    some (cs.foldl (fun a c => a * 10 + (c.toNat - 48)) 0)
  else none

/-- `datetime.strptime(s, "%Y-%m-%d")`: three dash-separated decimal fields
(year up to four digits, month and day up to two), with year, month and day
range-checked the way `strptime` checks them. -/
def strptimeYMD (s : String) : Except FmiErr DateOnly :=
  match splitOnChar '-' s.toList with
  | [ys, ms, ds] =>
    match digitsToNat? ys, digitsToNat? ms, digitsToNat? ds with
    | some y, some m, some d =>
      if ys.length ≤ 4 ∧ ms.length ≤ 2 ∧ ds.length ≤ 2 ∧ 1 ≤ y ∧ y ≤ 9999 ∧
          1 ≤ m ∧ m ≤ 12 ∧ 1 ≤ d ∧ d ≤ daysInMonth y m then
        Except.ok (DateOnly.mk y m d)
      else
        Except.error (FmiErr.strptimeError "time data does not match format")
    | _, _, _ => Except.error (FmiErr.strptimeError "time data does not match format")
  | _ => Except.error (FmiErr.strptimeError "time data does not match format")

/-- Resolve a date argument: strings go through `strptime`, `date` objects are
used as they are (the `isinstance(..., str)` branch of the source). -/
def resolveDateArg : DateArg → Except FmiErr DateOnly
  | DateArg.str s => strptimeYMD s
  | DateArg.obj d => Except.ok d

/-- `datetime.combine(d, datetime.min.time())`: the date at midnight. -/
def combineMin (d : DateOnly) : DateTime :=
  DateTime.mk d.year d.month d.day 0 0

/-- `datetime.combine(d, datetime.max.time()).replace(microsecond=0, second=0)`:
the date at 23:59:00. -/
def combineMaxTrunc (d : DateOnly) : DateTime :=
  DateTime.mk d.year d.month d.day 23 59

/-- `fmi.py` lines 265-315 (`_get_datetime_limits`), with the current time
passed in explicitly.  Mirrors the source's order of work: supplied dates are
parsed and combined first, then the none-of-three / all-of-three checks run
(on Python truthiness, so `hours=0` counts as absent), then the range is
inferred and the end clamped with `min(now, end)`. -/
def _get_datetime_limits (now : DateTime) (start_date end_date : Option DateArg)
    (hours : Option Nat) : Except FmiErr (DateTime × DateTime) := do
  let startOpt : Option DateTime ←
    match start_date with
    | none => pure none
    | some a => do
        let d ← resolveDateArg a
        pure (some (combineMin d))
  let endOpt : Option DateTime ←
    match end_date with
    | none => pure none
    | some a => do
        let d ← resolveDateArg a
        pure (some (combineMaxTrunc d))
  if ¬ (natTruthy hours ∨ start_date.isSome ∨ end_date.isSome) then
    throw (FmiErr.invalidArg "None provided: hours/start_date/end_date")
  else if natTruthy hours ∧ start_date.isSome ∧ end_date.isSome then
    throw (FmiErr.invalidArg "All provided: hours/start_date/end_date")
  else
    let h := hours.getD 0
    let se : DateTime × DateTime :=
      match startOpt, endOpt with
      | none, none => (subHours h now, now)
      | none, some e =>
          (if natTruthy hours then subHours h e else DateTime.mk 2018 1 1 0 0, e)
      | some s, none =>
          (s, if natTruthy hours then addHours h s else now)
      | some s, some e => (s, e)
    pure (se.1, pyMinDT now se.2)

/-! ## Forecast end time (`get_forecast`, `fmi.py` lines 137-147) -/

/-- The `endtime` a forecast query uses (`fmi.py` lines 137-147): `hours` if
truthy, else 66 for the `"harmonie"` model, else 54, added to `now`. -/
def get_forecast_end (now : DateTime) (model : String) (hours : Option Nat) :
    DateTime :=
  let h := if natTruthy hours then hours.getD 0
           else if model == "harmonie" then 66 else 54
  addHours h now

/-! ## Input checks and query parameters (`fmi.py` lines 50-52, 133-134, 161-179) -/

/-- `_fmi_inputchecks` (`fmi.py` lines 161-179). -/
def _fmi_inputchecks (place fmisid parameter model : Option String) :
    Except FmiErr Unit := do
  if ¬ strTruthy parameter then
    throw (FmiErr.invalidArg "argument parameter not provided")
  else if ¬ strTruthy place ∧ ¬ strTruthy fmisid then
    throw (FmiErr.invalidArg "Please provide either place or fmisid argument")
  else if strTruthy model ∧ ¬ (model.getD "" ∈ ["harmonie", "hirlam"]) then
    throw (FmiErr.invalidArg "Unknown model. Please choose harmonie or hirlam.")
  else
    pure ()

/-- The location entry of the query parameter dict:
`{"place": place} if place else {"fmisid": fmisid}` (`fmi.py` lines 52 and
134). -/
def fmi_location_params (place fmisid : Option String) : String × String :=
  if strTruthy place then ("place", place.getD "") else ("fmisid", fmisid.getD "")

/-! ## Parameter name translation (`_get_param_name`, `fmi.py` lines 182-262) -/

/-- The observation whitelist (`legit_params`, `fmi.py` lines 203-207). -/
def obs_legit_params : List String :=
  ["temperature", "temperature_avg", "temperature_max", "temperature_min",
   "humidity", "relative_humidity", "wind_speed_avg", "wind_speed_max",
   "wind_speed_min", "wind_direction", "rain_accumulated",
   "rain_intensity_max", "air_pressure"]

/-- The forecast whitelist (`legit_params`, `fmi.py` lines 245-246). -/
def forecast_legit_params : List String :=
  ["air_pressure", "temperature", "humidity", "wind_direction", "wind_speed"]

/-- The observation `match` statement (`fmi.py` lines 213-241); like the
Python `match` without a default case, it yields `none` (Python's implicit
`None`) on an unmatched name.  The `"wind_speed"` arm is in the source even
though the whitelist check makes it unreachable. -/
def obs_param_match : String → Option String
  | "temperature" => some "TA_PT1H_AVG"
  | "temperature_avg" => some "TA_PT1H_AVG"
  | "temperature_max" => some "TA_PT1H_MAX"
  | "temperature_min" => some "TA_PT1H_MIN"
  | "humidity" => some "RH_PT1H_AVG"
  | "relative_humidity" => some "RH_PT1H_AVG"
  | "wind_speed" => some "WS_PT1H_AVG"
  | "wind_speed_avg" => some "WS_PT1H_AVG"
  | "wind_speed_max" => some "WS_PT1H_MAX"
  | "wind_speed_min" => some "WS_PT1H_MIN"
  | "wind_direction" => some "WD_PT1H_AVG"
  | "rain_accumulated" => some "PRA_PT1H_ACC"
  | "rain_intensity_max" => some "PRI_PT1H_MAX"
  | "air_pressure" => some "PA_PT1H_AVG"
  | _ => none

/-- The forecast `match` statement (`fmi.py` lines 252-262). -/
def forecast_param_match : String → Option String
  | "air_pressure" => some "Pressure"
  | "temperature" => some "Temperature"
  | "humidity" => some "Humidity"
  | "wind_direction" => some "WindDirection"
  | "wind_speed" => some "WindSpeedMS"
  | _ => none

/-- `_get_param_name` (`fmi.py` lines 182-262).  The value is `Option String`
because the Python function returns `None` if control falls off the end of a
`match`. -/
def _get_param_name (wanted_param : String) (query_type : Option String) :
    Except FmiErr (Option String) := do
  if ¬ strTruthy query_type then
    throw (FmiErr.invalidArg "parameter query_type not provided.")
  else if ¬ (query_type.getD "" ∈ ["observation", "forecast"]) then
    throw (FmiErr.invalidArg "query_type not one of expected")
  else if query_type.getD "" == "observation" then
    if wanted_param ∉ obs_legit_params then
      throw (FmiErr.invalidArg "Asked parameter does not match any expected value.")
    else
      pure (obs_param_match wanted_param)
  else
    if wanted_param ∉ forecast_legit_params then
      throw (FmiErr.invalidArg "Asked parameter does not match any expected value.")
    else
      pure (forecast_param_match wanted_param)

/-- The argument handling `get_observations` performs before any query
(`fmi.py` lines 50-53): input checks, then the location entry of the query
dict, then the translated parameter code. -/
def get_observations_params (place fmisid parameter : Option String) :
    Except FmiErr ((String × String) × Option String) := do
  let _ ← _fmi_inputchecks place fmisid parameter none
  let loc := fmi_location_params place fmisid
  let code ← _get_param_name (parameter.getD "") (some "observation")
  pure (loc, code)

/-! ## XML extraction (`_tree_to_df`, `fmi.py` lines 343-371) -/

/-- An XML element as `xml.etree.ElementTree` presents it: a tag, the text
directly inside the element, and the child elements in document order. -/
inductive XmlEl where
  | mk : String → String → List XmlEl → XmlEl

def XmlEl.tag : XmlEl → String
  | XmlEl.mk t _ _ => t

def XmlEl.text : XmlEl → String
  | XmlEl.mk _ x _ => x

/-- Document-order traversal of an element and its subtree
(`ElementTree`'s `el.iter()`). -/
def iterEls : XmlEl → List XmlEl
  | XmlEl.mk t x cs => XmlEl.mk t x cs :: iterList cs
where iterList : List XmlEl → List XmlEl
  | [] => []
  | c :: cs => iterEls c ++ iterList cs

/-- Python `str.isspace`: true only for a nonempty string of whitespace. -/
def pyIsSpace (s : String) : Bool :=
  !s.toList.isEmpty && s.toList.all Char.isWhitespace

/-- The two tags skipped as carrying no per-row data (`fmi.py` lines
350-352). -/
def const_tags : List String :=
  ["\x7bhttp://www.opengis.net/gml/3.2\x7dpos",
   "\x7bhttp://xml.fmi.fi/schema/wfs/2.0\x7dParameterName"]

def time_tag : String := "\x7bhttp://xml.fmi.fi/schema/wfs/2.0\x7dTime"

def value_tag : String := "\x7bhttp://xml.fmi.fi/schema/wfs/2.0\x7dParameterValue"

/-- The collection loop of `_tree_to_df` (`fmi.py` lines 355-360): walk the
tree, skip whitespace-only texts and the two constant tags, and route the
remaining texts by tag into the `times` and `values` lists. -/
def collectTexts (els : List XmlEl) : List String × List String :=
  els.foldl
    (fun acc el =>
      if ¬ pyIsSpace el.text ∧ el.tag ∉ const_tags then
        if el.tag == time_tag then (acc.1 ++ [el.text], acc.2)
        else if el.tag == value_tag then (acc.1, acc.2 ++ [el.text])
        else acc
      else acc)
    ([], [])

/-- A parsed floating-point value.  Rationals stand in for finite binary
floats; `nan`/`inf` cover the special spellings `float` accepts. -/
inductive FloatVal where
  | num : ℚ → FloatVal
  | nan : FloatVal
  | inf : Bool → FloatVal
deriving DecidableEq

/-- Numeric-text conversion used by the value column cast
(`df["value"].astype("float")`, `fmi.py` line 370).  Modelled from the spec:
"values are parsed as floating point, failing with a ParseError (type
conversion failure) if non-numeric text appears".  Accepts an optional sign,
a decimal literal with an optional fractional part, and the `nan`/`inf`
spellings; everything else is non-numeric. -/
def parseFloatText (s : String) : Option FloatVal :=
  let t := ((s.toList.dropWhile Char.isWhitespace).reverse.dropWhile
    Char.isWhitespace).reverse
  let sgn : Bool × List Char :=
    match t with
    | '-' :: rest => (true, rest)
    | '+' :: rest => (false, rest)
    | _ => (false, t)
  let neg := sgn.1
  let body := sgn.2
  let low := body.map Char.toLower
  if low = ['n', 'a', 'n'] then some FloatVal.nan
  else if low = ['i', 'n', 'f'] ∨ low = ['i', 'n', 'f', 'i', 'n', 'i', 't', 'y'] then
    some (FloatVal.inf neg)
  else
    let q : Option ℚ :=
      match splitOnChar '.' body with
      | [a] => (digitsToNat? a).map (fun n => (n : ℚ))
      | [a, b] =>
          match digitsToNat? a, digitsToNat? b with
          | some na, some nb => some ((na : ℚ) + (nb : ℚ) / ((10 ^ b.length : Nat) : ℚ))
          | some na, none => if b = [] then some ((na : ℚ)) else none
          | none, some nb =>
              if a = [] then some ((nb : ℚ) / ((10 ^ b.length : Nat) : ℚ)) else none
          | none, none => none
      | _ => none
    q.map (fun v => FloatVal.num (if neg then -v else v))

/-- `_tree_to_df` (`fmi.py` lines 343-371) restricted to what the claims are
about: the `times`/`values` collection, the tabular constructor's
equal-length requirement, and the float cast of the value column.  Timestamp
texts are carried through unparsed. -/
def _tree_to_df (tree : XmlEl) : Except FmiErr (List (String × FloatVal)) :=
  let tv := collectTexts (iterEls tree)
  if tv.1.length ≠ tv.2.length then
    Except.error (FmiErr.strptimeError "All arrays must be of the same length")
  else
    match tv.2.mapM parseFloatText with
    | none => Except.error (FmiErr.strptimeError "could not convert string to float")
    | some vs => Except.ok (tv.1.zip vs)

/-! ## Calendar arithmetic lemmas -/

lemma isLeapYear_iff (y : Nat) :
    isLeapYear y = true ↔ ((y % 4 = 0 ∧ ¬ y % 100 = 0) ∨ y % 400 = 0) := by
  simp [isLeapYear, Bool.or_eq_true, Bool.and_eq_true, beq_iff_eq, bne_iff_ne]

set_option maxHeartbeats 1000000 in
lemma daysBeforeYear_succ (y : Nat) (hy : 1 ≤ y) :
    daysBeforeYear (y + 1) =
      daysBeforeYear y + (if isLeapYear y then 366 else 365) := by
  have h := isLeapYear_iff y
  by_cases hb : isLeapYear y = true
  · have hc := h.mp hb
    rw [if_pos hb]
    unfold daysBeforeYear
    omega
  · have hc : ¬ ((y % 4 = 0 ∧ ¬ y % 100 = 0) ∨ y % 400 = 0) := fun hc => hb (h.mpr hc)
    rw [if_neg hb]
    unfold daysBeforeYear
    omega

lemma daysBeforeMonth_succ (y m : Nat) :
    daysBeforeMonth y (m + 1) = daysBeforeMonth y m + daysInMonth y m := rfl

lemma daysInMonth_bounds (y m : Nat) (h1 : 1 ≤ m) (h2 : m ≤ 12) :
    28 ≤ daysInMonth y m ∧ daysInMonth y m ≤ 31 := by
  interval_cases m <;> simp only [daysInMonth] <;> first | omega | (split_ifs <;> omega)

lemma daysBeforeMonth_thirteen (y : Nat) :
    daysBeforeMonth y 13 = if isLeapYear y then 366 else 365 := by
  by_cases hb : isLeapYear y = true <;> simp [daysBeforeMonth, daysInMonth, hb]

lemma nextDay_spec (dt : DateTime) (h : dt.ValidDT) :
    (nextDay dt).ValidDT ∧ (nextDay dt).dateDays = dt.dateDays + 1 ∧
      (nextDay dt).hour = dt.hour ∧ (nextDay dt).minute = dt.minute := by
  obtain ⟨y, m, d, hh, mm⟩ := dt
  obtain ⟨hy, hm1, hm2, hd1, hd2, hhh, hmm⟩ := h
  simp only at *
  unfold nextDay
  simp only
  by_cases c1 : d < daysInMonth y m
  · rw [if_pos c1]
    simp only [DateTime.ValidDT, DateTime.dateDays, and_true, true_and]
    omega
  · rw [if_neg c1]
    by_cases c2 : m < 12
    · rw [if_pos c2]
      have hstep : daysBeforeMonth y (m + 1) = daysBeforeMonth y m + daysInMonth y m :=
        daysBeforeMonth_succ y m
      have hb := daysInMonth_bounds y (m + 1) (by omega) (by omega)
      simp only [DateTime.ValidDT, DateTime.dateDays, and_true, true_and]
      omega
    · rw [if_neg c2]
      have hm12 : m = 12 := by omega
      subst hm12
      have h31 : daysInMonth y 12 = 31 := rfl
      have h13 : daysBeforeMonth y 13 = daysBeforeMonth y 12 + 31 := rfl
      have hthirteen := daysBeforeMonth_thirteen y
      have hsucc := daysBeforeYear_succ y hy
      have hone : daysBeforeMonth (y + 1) 1 = 0 := rfl
      have hjan : daysInMonth (y + 1) 1 = 31 := rfl
      simp only [DateTime.ValidDT, DateTime.dateDays, and_true, true_and]
      by_cases hb : isLeapYear y = true
      · rw [if_pos hb] at hthirteen hsucc; omega
      · rw [if_neg hb] at hthirteen hsucc; omega

lemma nextHour_spec (dt : DateTime) (h : dt.ValidDT) :
    (nextHour dt).ValidDT ∧ (nextHour dt).toAbs = dt.toAbs + 60 := by
  have hnd := nextDay_spec dt h
  obtain ⟨hv, hdd, hhr, hmin⟩ := hnd
  obtain ⟨hy, hm1, hm2, hd1, hd2, hhh, hmm⟩ := h
  obtain ⟨hy2, hm12, hm22, hd12, hd22, hh2, hmm2⟩ := hv
  simp only [DateTime.dateDays] at hdd
  unfold nextHour
  by_cases c : dt.hour < 23
  · rw [if_pos c]
    simp only [DateTime.ValidDT, DateTime.toAbs, DateTime.dateDays, and_true, true_and]
    omega
  · rw [if_neg c]
    simp only [DateTime.ValidDT, DateTime.toAbs, DateTime.dateDays, and_true, true_and]
    omega

lemma daysBeforeYear_of_le_one (y : Nat) (h : y ≤ 1) : daysBeforeYear y = 0 := by
  interval_cases y <;> rfl

lemma prevDay_spec (dt : DateTime) (h : dt.ValidDT) (hdd : 1 ≤ dt.dateDays) :
    (prevDay dt).ValidDT ∧ (prevDay dt).dateDays + 1 = dt.dateDays ∧
      (prevDay dt).hour = dt.hour ∧ (prevDay dt).minute = dt.minute := by
  obtain ⟨y, m, d, hh, mm⟩ := dt
  obtain ⟨hy, hm1, hm2, hd1, hd2, hhh, hmm⟩ := h
  simp only at *
  simp only [DateTime.dateDays] at hdd
  unfold prevDay
  simp only
  by_cases c1 : 1 < d
  · rw [if_pos c1]
    simp only [DateTime.ValidDT, DateTime.dateDays, and_true, true_and]
    omega
  · rw [if_neg c1]
    by_cases c2 : 1 < m
    · rw [if_pos c2]
      obtain ⟨k, rfl⟩ : ∃ k, m = k + 1 := ⟨m - 1, by omega⟩
      have hstep : daysBeforeMonth y (k + 1) = daysBeforeMonth y k + daysInMonth y k :=
        daysBeforeMonth_succ y k
      have hbnd := daysInMonth_bounds y k (by omega) (by omega)
      have hk : k + 1 - 1 = k := by omega
      rw [hk]
      simp only [DateTime.ValidDT, DateTime.dateDays, and_true, true_and]
      omega
    · rw [if_neg c2]
      have hm1' : m = 1 := by omega
      subst hm1'
      have hb1 : daysBeforeMonth y 1 = 0 := rfl
      rcases Nat.lt_or_ge y 2 with hy2 | hy2
      · exfalso
        have h0 := daysBeforeYear_of_le_one y (by omega)
        omega
      · have hy1 : y - 1 + 1 = y := by omega
        have hsucc := daysBeforeYear_succ (y - 1) (by omega)
        rw [hy1] at hsucc
        have hthirteen := daysBeforeMonth_thirteen (y - 1)
        have h13 : daysBeforeMonth (y - 1) 13 = daysBeforeMonth (y - 1) 12 + 31 := rfl
        have h31 : daysInMonth (y - 1) 12 = 31 := rfl
        simp only [DateTime.ValidDT, DateTime.dateDays, and_true, true_and]
        by_cases hb : isLeapYear (y - 1) = true
        · rw [if_pos hb] at hthirteen hsucc; omega
        · rw [if_neg hb] at hthirteen hsucc; omega

lemma prevHour_spec (dt : DateTime) (h : dt.ValidDT) (habs : 60 ≤ dt.toAbs) :
    (prevHour dt).ValidDT ∧ (prevHour dt).toAbs + 60 = dt.toAbs := by
  obtain ⟨hy, hm1, hm2, hd1, hd2, hhh, hmm⟩ := h
  unfold prevHour
  by_cases c : 0 < dt.hour
  · rw [if_pos c]
    simp only [DateTime.ValidDT, DateTime.toAbs, DateTime.dateDays, and_true, true_and] at *
    omega
  · rw [if_neg c]
    have hdd : 1 ≤ dt.dateDays := by
      simp only [DateTime.toAbs] at habs
      omega
    have hpd := prevDay_spec dt ⟨hy, hm1, hm2, hd1, hd2, hhh, hmm⟩ hdd
    obtain ⟨⟨py, pm1, pm2, pd1, pd2, phh, pmm⟩, pdd, phr, pmin⟩ := hpd
    simp only [DateTime.ValidDT, DateTime.toAbs, DateTime.dateDays, and_true, true_and] at *
    omega

lemma addHours_spec (n : Nat) (dt : DateTime) (h : dt.ValidDT) :
    (addHours n dt).ValidDT ∧ (addHours n dt).toAbs = dt.toAbs + 60 * n := by
  induction n generalizing dt with
  | zero => simpa [addHours] using h
  | succ k ih =>
      have hnh := nextHour_spec dt h
      have hrec := ih (nextHour dt) hnh.1
      rw [show addHours (k + 1) dt = addHours k (nextHour dt) from rfl]
      refine ⟨hrec.1, ?_⟩
      rw [hrec.2, hnh.2]
      ring

lemma subHours_spec (n : Nat) (dt : DateTime) (h : dt.ValidDT)
    (hb : 60 * n ≤ dt.toAbs) :
    (subHours n dt).ValidDT ∧ (subHours n dt).toAbs + 60 * n = dt.toAbs := by
  induction n generalizing dt with
  | zero => simpa [subHours] using h
  | succ k ih =>
      have hph := prevHour_spec dt h (by omega)
      have hrec := ih (prevHour dt) hph.1 (by omega)
      rw [show subHours (k + 1) dt = subHours k (prevHour dt) from rfl]
      exact ⟨hrec.1, by omega⟩

lemma month_last_h_spec (dt : DateTime) (h : dt.ValidDT) :
    month_last_h dt =
      DateTime.mk dt.year dt.month (daysInMonth dt.year dt.month) 23 0 := by
  obtain ⟨y, m, d, hh, mm⟩ := dt
  obtain ⟨hy, hm1, hm2, hd1, hd2, hhh, hmm⟩ := h
  simp only at *
  interval_cases m
  · simp [month_last_h, addDays, nextDay, prevDay, prevHour, daysInMonth]
  · by_cases hb : isLeapYear y = true
    · simp [month_last_h, addDays, nextDay, prevDay, prevHour, daysInMonth, hb]
    · simp [month_last_h, addDays, nextDay, prevDay, prevHour, daysInMonth, hb]
  · simp [month_last_h, addDays, nextDay, prevDay, prevHour, daysInMonth]
  · simp [month_last_h, addDays, nextDay, prevDay, prevHour, daysInMonth]
  · simp [month_last_h, addDays, nextDay, prevDay, prevHour, daysInMonth]
  · simp [month_last_h, addDays, nextDay, prevDay, prevHour, daysInMonth]
  · simp [month_last_h, addDays, nextDay, prevDay, prevHour, daysInMonth]
  · simp [month_last_h, addDays, nextDay, prevDay, prevHour, daysInMonth]
  · simp [month_last_h, addDays, nextDay, prevDay, prevHour, daysInMonth]
  · simp [month_last_h, addDays, nextDay, prevDay, prevHour, daysInMonth]
  · simp [month_last_h, addDays, nextDay, prevDay, prevHour, daysInMonth]
  · simp [month_last_h, addDays, nextDay, prevDay, prevHour, daysInMonth]

lemma month_last_h_props (dt : DateTime) (h : dt.ValidDT) :
    (month_last_h dt).ValidDT ∧ (month_last_h dt).toAbs % 60 = 0 ∧
      dt.toAbs < (month_last_h dt).toAbs + 60 := by
  obtain ⟨hy, hm1, hm2, hd1, hd2, hhh, hmm⟩ := h
  have hb := daysInMonth_bounds dt.year dt.month hm1 hm2
  rw [month_last_h_spec dt ⟨hy, hm1, hm2, hd1, hd2, hhh, hmm⟩]
  simp only [DateTime.ValidDT, DateTime.toAbs, DateTime.dateDays, and_true, true_and]
  omega

/-! ## Chunk loop invariants -/

lemma chunksLoop_succ (fuel : Nat) (s e : DateTime) :
    chunksLoop (fuel + 1) s e =
      if e.toAbs < (month_last_h s).toAbs then some [(s, e)]
      else (chunksLoop fuel (nextHour (month_last_h s)) e).map
        (fun rest => (s, month_last_h s) :: rest) := rfl

lemma chunksLoop_ne_nil (fuel : Nat) (s e : DateTime) (cs : List (DateTime × DateTime))
    (h : chunksLoop fuel s e = some cs) : cs ≠ [] := by
  induction fuel generalizing s cs with
  | zero => simp [chunksLoop] at h
  | succ k ih =>
      rw [chunksLoop_succ] at h
      by_cases c : e.toAbs < (month_last_h s).toAbs
      · rw [if_pos c] at h
        injection h with h
        subst h
        simp
      · rw [if_neg c] at h
        rw [Option.map_eq_some'] at h
        obtain ⟨rest, _, rfl⟩ := h
        simp

lemma chunksLoop_head (fuel : Nat) (s e : DateTime) (cs : List (DateTime × DateTime))
    (h : chunksLoop fuel s e = some cs) :
    ∃ b tail, cs = (s, b) :: tail := by
  cases fuel with
  | zero => simp [chunksLoop] at h
  | succ k =>
      rw [chunksLoop_succ] at h
      by_cases c : e.toAbs < (month_last_h s).toAbs
      · rw [if_pos c] at h
        injection h with h
        exact ⟨e, [], h.symm⟩
      · rw [if_neg c] at h
        rw [Option.map_eq_some'] at h
        obtain ⟨rest, _, rfl⟩ := h
        exact ⟨month_last_h s, rest, rfl⟩

lemma chunksLoop_chunksOK (fuel : Nat) (e : DateTime) :
    ∀ s cs, chunksLoop fuel s e = some cs → chunksOK e s cs := by
  induction fuel with
  | zero => intro s cs h; simp [chunksLoop] at h
  | succ k ih =>
      intro s cs h
      rw [chunksLoop_succ] at h
      by_cases c : e.toAbs < (month_last_h s).toAbs
      · rw [if_pos c] at h
        injection h with h
        subst h
        exact ⟨rfl, rfl⟩
      · rw [if_neg c] at h
        rw [Option.map_eq_some'] at h
        obtain ⟨rest, hrest, rfl⟩ := h
        have hne := chunksLoop_ne_nil k _ e rest hrest
        have htail := ih _ rest hrest
        cases rest with
        | nil => exact absurd rfl hne
        | cons r rs => exact ⟨rfl, rfl, htail⟩

lemma toAbs_mod_60 (t : DateTime) (ht : t.minute = 0) : t.toAbs % 60 = 0 := by
  simp only [DateTime.toAbs]
  omega

lemma chunksLoop_chain (fuel : Nat) (e : DateTime) (he : e.ValidDT) :
    ∀ s cs, s.ValidDT → chunksLoop fuel s e = some cs →
      List.Chain' (fun c d : DateTime × DateTime => c.1.toAbs < d.1.toAbs) cs := by
  induction fuel with
  | zero => intro s cs _ h; simp [chunksLoop] at h
  | succ k ih =>
      intro s cs hs h
      rw [chunksLoop_succ] at h
      by_cases c : e.toAbs < (month_last_h s).toAbs
      · rw [if_pos c] at h
        injection h with h
        subst h
        simp
      · rw [if_neg c] at h
        rw [Option.map_eq_some'] at h
        obtain ⟨rest, hrest, rfl⟩ := h
        have hL := month_last_h_props s hs
        have hnh := nextHour_spec (month_last_h s) hL.1
        have htail := ih _ rest hnh.1 hrest
        rw [List.chain'_cons']
        refine ⟨?_, htail⟩
        intro b hb
        obtain ⟨b', tail', rfl⟩ := chunksLoop_head k _ e rest hrest
        simp only [List.head?_cons, Option.mem_def, Option.some.injEq] at hb
        subst hb
        simp only
        omega

lemma chunksLoop_cover (fuel : Nat) (e : DateTime) (he : e.ValidDT) :
    ∀ s cs, s.ValidDT → chunksLoop fuel s e = some cs →
      ∀ t : DateTime, t.minute = 0 →
        cs.countP (fun c => decide (c.1.toAbs ≤ t.toAbs ∧ t.toAbs ≤ c.2.toAbs)) =
          if s.toAbs ≤ t.toAbs ∧ t.toAbs ≤ e.toAbs then 1 else 0 := by
  induction fuel with
  | zero => intro s cs _ h; simp [chunksLoop] at h
  | succ k ih =>
      intro s cs hs h t ht
      rw [chunksLoop_succ] at h
      by_cases c : e.toAbs < (month_last_h s).toAbs
      · rw [if_pos c] at h
        injection h with h
        subst h
        rw [List.countP_cons, List.countP_nil]
        simp only [decide_eq_true_eq]
        split_ifs <;> omega
      · rw [if_neg c] at h
        rw [Option.map_eq_some'] at h
        obtain ⟨rest, hrest, rfl⟩ := h
        have hL := month_last_h_props s hs
        have hnh := nextHour_spec (month_last_h s) hL.1
        have htail := ih _ rest hnh.1 hrest t ht
        have h60 := toAbs_mod_60 t ht
        have hLmod : (month_last_h s).toAbs % 60 = 0 := hL.2.1
        have hsL : s.toAbs < (month_last_h s).toAbs + 60 := hL.2.2
        have hnha : (nextHour (month_last_h s)).toAbs = (month_last_h s).toAbs + 60 := hnh.2
        rw [List.countP_cons, htail, hnha]
        simp only [decide_eq_true_eq]
        split_ifs <;> omega

/-! ## Evaluation lemmas for `_get_datetime_limits` -/

lemma pyMinDT_abs (a b : DateTime) : (pyMinDT a b).toAbs = min a.toAbs b.toAbs := by
  unfold pyMinDT
  split_ifs <;> omega

lemma limits_hours_only (now : DateTime) (h : Nat) (hh : h ≠ 0) :
    _get_datetime_limits now none none (some h) = Except.ok (subHours h now, now) := by
  have ht : natTruthy (some h) = true := by simp [natTruthy, hh]
  simp [_get_datetime_limits, ht, pyMinDT, pure, Except.pure, bind, Except.bind]

lemma limits_start_only (now : DateTime) (d : DateOnly) :
    _get_datetime_limits now (some (DateArg.obj d)) none none =
      Except.ok (combineMin d, now) := by
  simp [_get_datetime_limits, natTruthy, resolveDateArg, pyMinDT, pure, Except.pure,
    bind, Except.bind]

lemma limits_start_hours (now : DateTime) (d : DateOnly) (h : Nat) (hh : h ≠ 0) :
    _get_datetime_limits now (some (DateArg.obj d)) none (some h) =
      Except.ok (combineMin d, pyMinDT now (addHours h (combineMin d))) := by
  have ht : natTruthy (some h) = true := by simp [natTruthy, hh]
  simp [_get_datetime_limits, ht, resolveDateArg, pure, Except.pure, bind, Except.bind]

lemma limits_end_only (now : DateTime) (d : DateOnly) :
    _get_datetime_limits now none (some (DateArg.obj d)) none =
      Except.ok (DateTime.mk 2018 1 1 0 0, pyMinDT now (combineMaxTrunc d)) := by
  simp [_get_datetime_limits, natTruthy, resolveDateArg, pure, Except.pure, bind, Except.bind]

lemma limits_end_hours (now : DateTime) (d : DateOnly) (h : Nat) (hh : h ≠ 0) :
    _get_datetime_limits now none (some (DateArg.obj d)) (some h) =
      Except.ok (subHours h (combineMaxTrunc d), pyMinDT now (combineMaxTrunc d)) := by
  have ht : natTruthy (some h) = true := by simp [natTruthy, hh]
  simp [_get_datetime_limits, ht, resolveDateArg, pure, Except.pure, bind, Except.bind]

lemma limits_both_dates (now : DateTime) (ds de : DateOnly) :
    _get_datetime_limits now (some (DateArg.obj ds)) (some (DateArg.obj de)) none =
      Except.ok (combineMin ds, pyMinDT now (combineMaxTrunc de)) := by
  simp [_get_datetime_limits, natTruthy, resolveDateArg, pure, Except.pure, bind, Except.bind]

/-! ## Claim theorems -/

/-- Claim C1: for a range of more than 744 hours, `get_observations` splits
the range into successive chunks whose structure is `chunksOK` (first chunk
starts at `start`, every non-final chunk ends at the last hour of its start's
month, each later chunk starts exactly one hour after the previous chunk's
end, the final chunk ends at the requested end), the chunks are concatenated
in chronologically increasing order of their starts, and every whole hour of
`[start, end]` lies in exactly one chunk (no hour dropped or duplicated). -/
theorem fmi_C1_chunk_cover (fuel : Nat) (s e : DateTime)
    (cs : List (DateTime × DateTime)) (hs : s.ValidDT) (he : e.ValidDT)
    (hspan : 744 < spanHours s e) (h : get_observations_chunks fuel s e = some cs) :
    chunksOK e s cs ∧
      List.Chain' (fun c d : DateTime × DateTime => c.1.toAbs < d.1.toAbs) cs ∧
      ∀ t : DateTime, t.minute = 0 →
        cs.countP (fun c => decide (c.1.toAbs ≤ t.toAbs ∧ t.toAbs ≤ c.2.toAbs)) =
          if s.toAbs ≤ t.toAbs ∧ t.toAbs ≤ e.toAbs then 1 else 0 := by
  have htl : too_long s e = true := by
    simp [too_long, hspan]
  rw [get_observations_chunks, if_pos htl] at h
  exact ⟨chunksLoop_chunksOK fuel e s cs h, chunksLoop_chain fuel e he s cs hs h,
    chunksLoop_cover fuel e he s cs hs h⟩

/-- Witness for C1 at the spec's 1000-hour example range
2022-08-15T00:00 to 2022-09-25T16:00: the loop terminates with two chunks of
the required structure, and the month-boundary hour 2022-08-31T23:00 is
covered exactly once. -/
theorem fmi_C1_chunk_cover_witness :
    chunksOK (DateTime.mk 2022 9 25 16 0) (DateTime.mk 2022 8 15 0 0)
        [(DateTime.mk 2022 8 15 0 0, DateTime.mk 2022 8 31 23 0),
         (DateTime.mk 2022 9 1 0 0, DateTime.mk 2022 9 25 16 0)] ∧
      List.countP
          (fun c : DateTime × DateTime =>
            decide (c.1.toAbs ≤ (DateTime.mk 2022 8 31 23 0).toAbs ∧
              (DateTime.mk 2022 8 31 23 0).toAbs ≤ c.2.toAbs))
          [(DateTime.mk 2022 8 15 0 0, DateTime.mk 2022 8 31 23 0),
           (DateTime.mk 2022 9 1 0 0, DateTime.mk 2022 9 25 16 0)] = 1 := by
  have h := fmi_C1_chunk_cover 2 (DateTime.mk 2022 8 15 0 0) (DateTime.mk 2022 9 25 16 0)
    [(DateTime.mk 2022 8 15 0 0, DateTime.mk 2022 8 31 23 0),
     (DateTime.mk 2022 9 1 0 0, DateTime.mk 2022 9 25 16 0)]
    (by decide) (by decide) (by decide) (by decide)
  refine ⟨h.1, ?_⟩
  have h2 := h.2.2 (DateTime.mk 2022 8 31 23 0) rfl
  exact h2.trans (by decide)

/-- Claim C2: the month-boundary helper returns the final hour (23:00 of the
last day) of the month of its argument, for every valid datetime — in
particular across the December year rollover and in a leap February. -/
theorem fmi_C2_month_last_h (dt : DateTime) (h : dt.ValidDT) :
    month_last_h dt =
      DateTime.mk dt.year dt.month (daysInMonth dt.year dt.month) 23 0 :=
  month_last_h_spec dt h

/-- Witness for C2: a leap-February 2024 date yields 2024-02-29 23:00 and a
December date yields December 31 23:00 of the same year. -/
theorem fmi_C2_month_last_h_witness :
    month_last_h (DateTime.mk 2024 2 15 9 30) = DateTime.mk 2024 2 29 23 0 ∧
      month_last_h (DateTime.mk 2022 12 5 0 0) = DateTime.mk 2022 12 31 23 0 := by
  constructor
  · exact (fmi_C2_month_last_h (DateTime.mk 2024 2 15 9 30) (by decide)).trans (by decide)
  · exact (fmi_C2_month_last_h (DateTime.mk 2022 12 5 0 0) (by decide)).trans (by decide)

/-- Claim C6: a range of at most 744 hours is fetched with exactly one query
window, the whole requested range, with no chunking. -/
theorem fmi_C6_single_query (fuel : Nat) (s e : DateTime)
    (h : spanHours s e ≤ 744) :
    get_observations_chunks fuel s e = some [(s, e)] := by
  have htl : ¬ too_long s e = true := by
    simp only [too_long, decide_eq_true_eq, not_lt]
    omega
  rw [get_observations_chunks, if_neg htl]

/-- Witness for C6: a 743-hour August range is fetched as a single window. -/
theorem fmi_C6_single_query_witness :
    get_observations_chunks 1 (DateTime.mk 2022 8 1 0 0) (DateTime.mk 2022 8 31 23 0) =
      some [(DateTime.mk 2022 8 1 0 0, DateTime.mk 2022 8 31 23 0)] :=
  fmi_C6_single_query 1 (DateTime.mk 2022 8 1 0 0) (DateTime.mk 2022 8 31 23 0) (by decide)

/-- Claim C3 counterexample: with `now` = 2022-09-25 12:00 and only a
start_date one day in the future, `_get_datetime_limits` returns
start = 2022-09-26 00:00 and end = now, so start > end: the claimed invariant
start ≤ end fails on the code. -/
theorem fmi_C3_counterexample :
    _get_datetime_limits (DateTime.mk 2022 9 25 12 0)
        (some (DateArg.obj (DateOnly.mk 2022 9 26))) none none =
      Except.ok (DateTime.mk 2022 9 26 0 0, DateTime.mk 2022 9 25 12 0) ∧
      (DateTime.mk 2022 9 25 12 0).toAbs < (DateTime.mk 2022 9 26 0 0).toAbs := by
  constructor
  · exact (limits_start_only (DateTime.mk 2022 9 25 12 0) (DateOnly.mk 2022 9 26)).trans rfl
  · decide

/-- Claim C3 amended: in every valid argument combination the returned
end never exceeds `now` (a future end_date is clamped to `now`, final
conjunct), and start ≤ end holds provided the raw start does not land past
`now` or past the raw end: always in the hours-only case; when a supplied
start_date (taken at midnight) is not after `now` and not after the end;
when an end_date-only request has its end and `now` at or after the
2018-01-01 epoch floor; and when end_date − hours is not after `now`. -/
theorem fmi_C3_amended (now : DateTime) (hnow : now.ValidDT) :
    (∀ h : Nat, h ≠ 0 → 60 * h ≤ now.toAbs →
      ∃ s e, _get_datetime_limits now none none (some h) = Except.ok (s, e) ∧
        s.toAbs ≤ e.toAbs ∧ e.toAbs ≤ now.toAbs) ∧
    (∀ d : DateOnly, (combineMin d).toAbs ≤ now.toAbs →
      ∃ s e, _get_datetime_limits now (some (DateArg.obj d)) none none = Except.ok (s, e) ∧
        s.toAbs ≤ e.toAbs ∧ e.toAbs ≤ now.toAbs) ∧
    (∀ (d : DateOnly) (h : Nat), h ≠ 0 → (combineMin d).ValidDT →
        (combineMin d).toAbs ≤ now.toAbs →
      ∃ s e, _get_datetime_limits now (some (DateArg.obj d)) none (some h) =
          Except.ok (s, e) ∧ s.toAbs ≤ e.toAbs ∧ e.toAbs ≤ now.toAbs) ∧
    (∀ d : DateOnly, (DateTime.mk 2018 1 1 0 0).toAbs ≤ (combineMaxTrunc d).toAbs →
        (DateTime.mk 2018 1 1 0 0).toAbs ≤ now.toAbs →
      ∃ s e, _get_datetime_limits now none (some (DateArg.obj d)) none = Except.ok (s, e) ∧
        s.toAbs ≤ e.toAbs ∧ e.toAbs ≤ now.toAbs) ∧
    (∀ (d : DateOnly) (h : Nat), h ≠ 0 → (combineMaxTrunc d).ValidDT →
        60 * h ≤ (combineMaxTrunc d).toAbs →
        (combineMaxTrunc d).toAbs ≤ now.toAbs + 60 * h →
      ∃ s e, _get_datetime_limits now none (some (DateArg.obj d)) (some h) =
          Except.ok (s, e) ∧ s.toAbs ≤ e.toAbs ∧ e.toAbs ≤ now.toAbs) ∧
    (∀ ds de : DateOnly, (combineMin ds).toAbs ≤ now.toAbs →
        (combineMin ds).toAbs ≤ (combineMaxTrunc de).toAbs →
      ∃ s e, _get_datetime_limits now (some (DateArg.obj ds)) (some (DateArg.obj de)) none =
          Except.ok (s, e) ∧ s.toAbs ≤ e.toAbs ∧ e.toAbs ≤ now.toAbs) ∧
    (∀ d : DateOnly, now.toAbs ≤ (combineMaxTrunc d).toAbs →
      ∃ s, _get_datetime_limits now none (some (DateArg.obj d)) none =
        Except.ok (s, now)) := by
  refine ⟨?_, ?_, ?_, ?_, ?_, ?_, ?_⟩
  · intro h hh hb
    refine ⟨_, _, limits_hours_only now h hh, ?_, le_refl _⟩
    have := subHours_spec h now hnow hb
    omega
  · intro d hd
    exact ⟨_, _, limits_start_only now d, hd, le_refl _⟩
  · intro d h hh hv hd
    refine ⟨_, _, limits_start_hours now d h hh, ?_, ?_⟩
    · have ha := (addHours_spec h (combineMin d) hv).2
      have hm := pyMinDT_abs now (addHours h (combineMin d))
      omega
    · have hm := pyMinDT_abs now (addHours h (combineMin d))
      omega
  · intro d h1 h2
    refine ⟨_, _, limits_end_only now d, ?_, ?_⟩
    · have hm := pyMinDT_abs now (combineMaxTrunc d)
      omega
    · have hm := pyMinDT_abs now (combineMaxTrunc d)
      omega
  · intro d h hh hv hb hc
    refine ⟨_, _, limits_end_hours now d h hh, ?_, ?_⟩
    · have hs := (subHours_spec h (combineMaxTrunc d) hv hb).2
      have hm := pyMinDT_abs now (combineMaxTrunc d)
      omega
    · have hm := pyMinDT_abs now (combineMaxTrunc d)
      omega
  · intro ds de h1 h2
    refine ⟨_, _, limits_both_dates now ds de, ?_, ?_⟩
    · have hm := pyMinDT_abs now (combineMaxTrunc de)
      omega
    · have hm := pyMinDT_abs now (combineMaxTrunc de)
      omega
  · intro d hd
    refine ⟨DateTime.mk 2018 1 1 0 0, ?_⟩
    rw [limits_end_only now d]
    have : pyMinDT now (combineMaxTrunc d) = now := by
      unfold pyMinDT
      rw [if_neg (by omega)]
    rw [this]

/-- Witness for the amended C3: with `now` = 2022-09-25 12:00, a 5-hour
request yields a well-ordered range ending at `now`. -/
theorem fmi_C3_amended_witness :
    ∃ s e, _get_datetime_limits (DateTime.mk 2022 9 25 12 0) none none (some 5) =
        Except.ok (s, e) ∧ s.toAbs ≤ e.toAbs ∧
        e.toAbs ≤ (DateTime.mk 2022 9 25 12 0).toAbs :=
  (fmi_C3_amended (DateTime.mk 2022 9 25 12 0) (by decide)).1 5 (by decide) (by decide)

/-- Claim C4 counterexample: with all three of hours/start_date/end_date
supplied, a malformed start_date string raises the strptime parse error, not
the InvalidArgument rejection — the dates are parsed before the all-three
check; and with `hours = 0` (falsy in Python) together with both dates, no
error is raised at all. -/
theorem fmi_C4_counterexample :
    _get_datetime_limits (DateTime.mk 2023 1 1 0 0) (some (DateArg.str "2022-13-01"))
        (some (DateArg.obj (DateOnly.mk 2022 1 2))) (some 5) =
      Except.error (FmiErr.strptimeError "time data does not match format") ∧
    _get_datetime_limits (DateTime.mk 2023 1 1 0 0)
        (some (DateArg.obj (DateOnly.mk 2022 1 1)))
        (some (DateArg.obj (DateOnly.mk 2022 1 2))) (some 0) =
      Except.ok (DateTime.mk 2022 1 1 0 0, DateTime.mk 2022 1 2 23 59) := by
  constructor
  · rfl
  · decide

/-- Claim C4 amended: `_get_datetime_limits` raises InvalidArgument when none
of hours/start_date/end_date is supplied (here nothing is parsed first, as
there is nothing to parse), and when all three are supplied with a nonzero
hours and well-formed dates — although in the all-three case the supplied
dates are parsed and combined before the check fires. -/
theorem fmi_C4_amended (now : DateTime) (sd ed : DateOnly) (h : Nat) (hh : h ≠ 0) :
    _get_datetime_limits now none none none =
        Except.error (FmiErr.invalidArg "None provided: hours/start_date/end_date") ∧
      _get_datetime_limits now (some (DateArg.obj sd)) (some (DateArg.obj ed)) (some h) =
        Except.error (FmiErr.invalidArg "All provided: hours/start_date/end_date") := by
  constructor
  · rfl
  · have ht : natTruthy (some h) = true := by simp [natTruthy, hh]
    simp [_get_datetime_limits, ht, resolveDateArg, pure, Except.pure, bind, Except.bind,
      throw, throwThe, MonadExceptOf.throw]

/-- Witness for the amended C4 at concrete arguments. -/
theorem fmi_C4_amended_witness :
    _get_datetime_limits (DateTime.mk 2023 1 1 0 0) none none none =
        Except.error (FmiErr.invalidArg "None provided: hours/start_date/end_date") ∧
      _get_datetime_limits (DateTime.mk 2023 1 1 0 0)
          (some (DateArg.obj (DateOnly.mk 2022 1 1)))
          (some (DateArg.obj (DateOnly.mk 2022 1 2))) (some 5) =
        Except.error (FmiErr.invalidArg "All provided: hours/start_date/end_date") :=
  fmi_C4_amended (DateTime.mk 2023 1 1 0 0) (DateOnly.mk 2022 1 1) (DateOnly.mk 2022 1 2)
    5 (by decide)

lemma mapM_eq_none_of_mem {α β : Type} (f : α → Option β) (l : List α) (a : α)
    (ha : a ∈ l) (hfa : f a = none) : l.mapM f = none := by
  induction l with
  | nil => cases ha
  | cons x xs ih =>
      rw [List.mapM_cons]
      rcases List.mem_cons.mp ha with rfl | hmem
      · rw [hfa]
        rfl
      · cases hx : f x
        · rfl
        · rw [ih hmem]
          rfl

/-- Claim C5: parameter translation is a pure total function on each
category's whitelist: each of the 13 observation names and 5 forecast names
maps to its documented provider code, and every name outside the category's
whitelist raises InvalidArgument, independently per category. -/
theorem fmi_C5_param_translation :
    ((_get_param_name "temperature" (some "observation") = Except.ok (some "TA_PT1H_AVG")) ∧
      (_get_param_name "temperature_avg" (some "observation") = Except.ok (some "TA_PT1H_AVG")) ∧
      (_get_param_name "temperature_max" (some "observation") = Except.ok (some "TA_PT1H_MAX")) ∧
      (_get_param_name "temperature_min" (some "observation") = Except.ok (some "TA_PT1H_MIN")) ∧
      (_get_param_name "humidity" (some "observation") = Except.ok (some "RH_PT1H_AVG")) ∧
      (_get_param_name "relative_humidity" (some "observation") = Except.ok (some "RH_PT1H_AVG")) ∧
      (_get_param_name "wind_speed_avg" (some "observation") = Except.ok (some "WS_PT1H_AVG")) ∧
      (_get_param_name "wind_speed_max" (some "observation") = Except.ok (some "WS_PT1H_MAX")) ∧
      (_get_param_name "wind_speed_min" (some "observation") = Except.ok (some "WS_PT1H_MIN")) ∧
      (_get_param_name "wind_direction" (some "observation") = Except.ok (some "WD_PT1H_AVG")) ∧
      (_get_param_name "rain_accumulated" (some "observation") = Except.ok (some "PRA_PT1H_ACC")) ∧
      (_get_param_name "rain_intensity_max" (some "observation") = Except.ok (some "PRI_PT1H_MAX")) ∧
      (_get_param_name "air_pressure" (some "observation") = Except.ok (some "PA_PT1H_AVG"))) ∧
    ((_get_param_name "air_pressure" (some "forecast") = Except.ok (some "Pressure")) ∧
      (_get_param_name "temperature" (some "forecast") = Except.ok (some "Temperature")) ∧
      (_get_param_name "humidity" (some "forecast") = Except.ok (some "Humidity")) ∧
      (_get_param_name "wind_direction" (some "forecast") = Except.ok (some "WindDirection")) ∧
      (_get_param_name "wind_speed" (some "forecast") = Except.ok (some "WindSpeedMS"))) ∧
    (∀ p : String, p ∉ obs_legit_params →
      _get_param_name p (some "observation") =
        Except.error (FmiErr.invalidArg "Asked parameter does not match any expected value.")) ∧
    (∀ p : String, p ∉ forecast_legit_params →
      _get_param_name p (some "forecast") =
        Except.error (FmiErr.invalidArg "Asked parameter does not match any expected value.")) := by
  refine ⟨⟨rfl, rfl, rfl, rfl, rfl, rfl, rfl, rfl, rfl, rfl, rfl, rfl, rfl⟩,
    ⟨rfl, rfl, rfl, rfl, rfl⟩, ?_, ?_⟩
  · intro p hp
    simp [_get_param_name, strTruthy, hp, throw, throwThe, MonadExceptOf.throw]
  · intro p hp
    simp [_get_param_name, strTruthy, hp, throw, throwThe, MonadExceptOf.throw]

/-- Witness for C5: the observation-only spelling `wind_speed` is rejected for
observations (it is on the forecast whitelist only), and `temperature_max` is
rejected for forecasts. -/
theorem fmi_C5_param_translation_witness :
    _get_param_name "wind_speed" (some "observation") =
        Except.error (FmiErr.invalidArg "Asked parameter does not match any expected value.") ∧
      _get_param_name "temperature_max" (some "forecast") =
        Except.error (FmiErr.invalidArg "Asked parameter does not match any expected value.") :=
  ⟨fmi_C5_param_translation.2.2.1 "wind_speed" (by decide),
    fmi_C5_param_translation.2.2.2 "temperature_max" (by decide)⟩

set_option maxRecDepth 4000 in
/-- Claim C7 counterexample: supplying `hours = 0` does not override the
default — Python truthiness treats 0 as absent, so the end time is
now + 66 hours rather than now + 0 hours. -/
theorem fmi_C7_counterexample :
    get_forecast_end (DateTime.mk 2022 9 25 12 0) "harmonie" (some 0) =
        DateTime.mk 2022 9 28 6 0 ∧
      get_forecast_end (DateTime.mk 2022 9 25 12 0) "harmonie" (some 0) ≠
        DateTime.mk 2022 9 25 12 0 := by
  constructor
  · decide
  · decide

/-- Claim C7 amended: with no hours argument the forecast end time is
now + 66 hours for the default `"harmonie"` model and now + 54 hours for
`"hirlam"`; a nonzero supplied hours overrides the default (hours = 0 falls
back to it). -/
theorem fmi_C7_amended (now : DateTime) (h : Nat) (hh : h ≠ 0) (m : String) :
    get_forecast_end now "harmonie" none = addHours 66 now ∧
      get_forecast_end now "hirlam" none = addHours 54 now ∧
      get_forecast_end now m (some h) = addHours h now := by
  refine ⟨rfl, rfl, ?_⟩
  have ht : natTruthy (some h) = true := by simp [natTruthy, hh]
  simp [get_forecast_end, ht]

/-- Witness for the amended C7 at a concrete time, model and override. -/
theorem fmi_C7_amended_witness :
    get_forecast_end (DateTime.mk 2022 9 25 12 0) "harmonie" none =
        addHours 66 (DateTime.mk 2022 9 25 12 0) ∧
      get_forecast_end (DateTime.mk 2022 9 25 12 0) "hirlam" none =
        addHours 54 (DateTime.mk 2022 9 25 12 0) ∧
      get_forecast_end (DateTime.mk 2022 9 25 12 0) "harmonie" (some 24) =
        addHours 24 (DateTime.mk 2022 9 25 12 0) :=
  fmi_C7_amended (DateTime.mk 2022 9 25 12 0) 24 (by decide) "harmonie"

/-- Claim C8 counterexample: supplying BOTH a place and an fmisid passes the
input checks with no error — the code only rejects the case where both are
missing, not the case where both are present. -/
theorem fmi_C8_counterexample :
    _fmi_inputchecks (some "Helsinki") (some "101799") (some "temperature") none =
      Except.ok () := rfl

/-- Claim C8 amended: the input check requires at least one (not exactly one)
of place and fmisid: a call supplying neither fails with InvalidArgument, and
the observation-query argument pipeline fails the same way before any query
parameters are produced; a call supplying both is accepted. -/
theorem fmi_C8_amended (place fmisid parameter model : Option String)
    (hpl : strTruthy place = false) (hfm : strTruthy fmisid = false)
    (hpar : strTruthy parameter = true) :
    _fmi_inputchecks place fmisid parameter model =
        Except.error (FmiErr.invalidArg "Please provide either place or fmisid argument") ∧
      get_observations_params place fmisid parameter =
        Except.error (FmiErr.invalidArg "Please provide either place or fmisid argument") := by
  have h1 : ∀ mo : Option String, _fmi_inputchecks place fmisid parameter mo =
      Except.error (FmiErr.invalidArg "Please provide either place or fmisid argument") := by
    intro mo
    simp [_fmi_inputchecks, hpl, hfm, hpar, throw, throwThe, MonadExceptOf.throw]
  refine ⟨h1 model, ?_⟩
  simp only [get_observations_params, h1 none, bind, Except.bind]

/-- Witness for the amended C8: neither location argument supplied. -/
theorem fmi_C8_amended_witness :
    _fmi_inputchecks none none (some "temperature") none =
        Except.error (FmiErr.invalidArg "Please provide either place or fmisid argument") ∧
      get_observations_params none none (some "temperature") =
        Except.error (FmiErr.invalidArg "Please provide either place or fmisid argument") :=
  fmi_C8_amended none none (some "temperature") none rfl rfl rfl

/-- Claim C10: when both a place and an fmisid are supplied, no error is
raised and the query's location parameter is built from the place alone,
silently ignoring the fmisid.  The model argument covers both entry points:
`get_observations` passes none (`fmi.py` line 50) and `get_forecast` always
passes a truthy model name that the checks accept, `"harmonie"` by default
(`fmi.py` line 133). -/
theorem fmi_C10_place_precedence (p f : String) (hp : p ≠ "")
    (parameter model : Option String) (hpar : strTruthy parameter = true)
    (hm : strTruthy model = false ∨ model.getD "" ∈ ["harmonie", "hirlam"]) :
    _fmi_inputchecks (some p) (some f) parameter model = Except.ok () ∧
      fmi_location_params (some p) (some f) = ("place", p) := by
  have hpl : strTruthy (some p) = true := by simp [strTruthy, hp]
  refine ⟨?_, by simp [fmi_location_params, hpl]⟩
  rcases hm with hm | hm
  · simp [_fmi_inputchecks, hpl, hpar, hm, pure, Except.pure]
  · simp [_fmi_inputchecks, hpl, hpar, hm, pure, Except.pure]

/-- Witness for C10 in the `get_forecast` call shape: both location arguments
supplied together with the default model `"harmonie"` and a forecast
parameter pass the checks, and the location entry uses the place. -/
theorem fmi_C10_place_precedence_witness :
    _fmi_inputchecks (some "Helsinki") (some "101799") (some "wind_speed")
        (some "harmonie") = Except.ok () ∧
      fmi_location_params (some "Helsinki") (some "101799") = ("place", "Helsinki") :=
  fmi_C10_place_precedence "Helsinki" "101799" (by decide) (some "wind_speed")
    (some "harmonie") rfl (Or.inr (by decide))

/-- Claim C9: in the result-table conversion, every value cell is parsed as
floating point: when some collected value text is non-numeric the conversion
raises the float-conversion parse error rather than coercing or skipping the
row, and when all value texts are numeric the table contains exactly one
parsed value per collected row. -/
lemma tree_to_df_eq (tree : XmlEl) :
    _tree_to_df tree =
      if (collectTexts (iterEls tree)).1.length ≠
          (collectTexts (iterEls tree)).2.length then
        Except.error (FmiErr.strptimeError "All arrays must be of the same length")
      else
        match (collectTexts (iterEls tree)).2.mapM parseFloatText with
        | none => Except.error (FmiErr.strptimeError "could not convert string to float")
        | some vs => Except.ok ((collectTexts (iterEls tree)).1.zip vs) := rfl

theorem fmi_C9_value_parse (tree : XmlEl)
    (hlen : (collectTexts (iterEls tree)).1.length =
      (collectTexts (iterEls tree)).2.length) :
    ((∃ v ∈ (collectTexts (iterEls tree)).2, parseFloatText v = none) →
        _tree_to_df tree =
          Except.error (FmiErr.strptimeError "could not convert string to float")) ∧
      (∀ vs, (collectTexts (iterEls tree)).2.mapM parseFloatText = some vs →
        _tree_to_df tree = Except.ok ((collectTexts (iterEls tree)).1.zip vs)) := by
  rcases hc : collectTexts (iterEls tree) with ⟨ts, vals⟩
  rw [hc] at hlen
  simp only at hlen
  constructor
  · rintro ⟨v, hv, hpv⟩
    have hnone := mapM_eq_none_of_mem parseFloatText vals v hv hpv
    have hnone2 : List.mapM.loop parseFloatText vals [] = none := hnone
    simp [tree_to_df_eq, hc, hnone2, hlen]
  · intro vs hvs
    have hvs2 : List.mapM.loop parseFloatText vals [] = some vs := hvs
    simp [tree_to_df_eq, hc, hvs2, hlen]

/-- Witness for C9: a tree with one timestamp element and one value element
whose text `"abc"` is non-numeric makes the conversion fail with the
float-conversion error. -/
theorem fmi_C9_value_parse_witness :
    _tree_to_df (XmlEl.mk "root" " "
        [XmlEl.mk time_tag "2022-09-25T00:00:00Z" [],
         XmlEl.mk value_tag "abc" []]) =
      Except.error (FmiErr.strptimeError "could not convert string to float") :=
  (fmi_C9_value_parse (XmlEl.mk "root" " "
      [XmlEl.mk time_tag "2022-09-25T00:00:00Z" [],
       XmlEl.mk value_tag "abc" []]) (by decide)).1
    ⟨"abc", by decide, by decide⟩
